import Mathlib

/-!
Verification development for the sqlite query-bridge example (`src/examples/sqlite.rs`).

The example implements a bridge between a Postgres-wire-protocol front end
(the external `pgwire` crate) and an embedded sqlite engine (the external
`rusqlite` crate).  We shallowly embed the bridge's own code — the routing
in the two `do_query` handlers, `name_to_type`, `row_desc_from_stmt`,
`encode_text_row_data`, `encode_binary_row_data` and `get_params` — as pure
Lean functions.  Panics (Rust `unwrap` / `unimplemented!`) are modelled by
`Option`: a `none` result means the request aborted with a panic.

External collaborators are modelled by their documented contracts:
  * the sqlite connection/statement is a record of functions over an
    abstract database state `σ` (prepare, run a query cursor, execute);
    running a query cursor is read-only (sqlite `SELECT` does not change
    the database), executing may change the state;
  * a wire `f64` is an opaque carrier `F64` together with the decimal
    string Rust's `ToString` would render for it (the bridge only ever
    formats or forwards the float, never computes with it);
  * `String::from_utf8_lossy` and `hex::encode` from the Rust standard
    ecosystem are implemented here following their documented behaviour
    (WHATWG lossy UTF-8 decoding with U+FFFD replacement per maximal
    invalid subpart; lowercase hexadecimal).
-/

/-- Wire-protocol type tags (`pgwire::api::Type`, re-exported from
`postgres-types`).  The real enumeration is much larger; we model the tags
the example mentions plus a few representative unsupported ones
(`BYTEA` is produced by `name_to_type` but is not a supported parameter
tag; `DATE`, `TIMESTAMP`, `UNKNOWN` stand for the rest of the vocabulary). -/
inductive PgType where
  | BOOL | INT4 | INT8 | TEXT | VARCHAR | FLOAT4 | FLOAT8 | BYTEA
  | DATE | TIMESTAMP | UNKNOWN
deriving DecidableEq, Repr

/-- Column metadata exposed by a prepared rusqlite statement
(`rusqlite::Column`): a name and the declared type of the column.
`decl_type` is `none` exactly when sqlite's `sqlite3_column_decltype`
returns null, i.e. when the result column is an expression or subquery
rather than a table column. -/
structure Column where
  name : String
  decl_type : Option String
deriving DecidableEq, Repr

/-- Field description sent in a RowDescription message
(`pgwire::api::results::FieldInfo`); the example always passes `None`
for the table and column oids. -/
structure FieldInfo where
  name : String
  tableId : Option Nat
  columnId : Option Nat
  dataType : PgType
deriving DecidableEq, Repr

/-- Command-completion tag (`pgwire::api::results::Tag`). -/
structure Tag where
  command : String
  rows : Option Nat
deriving DecidableEq, Repr

/-- Constructor used by the example: `Tag::new_for_execution(name, rows)`. -/
def Tag.new_for_execution (command : String) (rows : Option Nat) : Tag :=
  ⟨command, rows⟩

/-- Opaque model of an IEEE-754 `f64` produced by the engine.  The bridge
never computes with the float: in text mode it forwards Rust's
`ToString` rendering (carried here as `display`), in binary mode it
forwards the value itself to the binary field writer.  For example the
`f64` written `3.14` carries `display = "3.14"`, which is what Rust's
shortest-round-trip formatting prints for it. -/
structure F64 where
  display : String
deriving DecidableEq, Repr

/-- Native sqlite cell value (`rusqlite::types::ValueRef`): the closed sum
over Null, 64-bit integer, 64-bit float, UTF-8-ish text bytes, and blob
bytes. -/
inductive ValueRef where
  | Null
  | Integer (i : Int)
  | Real (r : F64)
  | Text (t : List UInt8)
  | Blob (b : List UInt8)
deriving DecidableEq, Repr

/-- A field of a binary-format data row.  `absent` is the null field the
builder writes for `append_field(None)`; every other variant is the native
payload handed to the binary field writer unconverted. -/
inductive BinField where
  | absent
  | int (i : Int)
  | real (r : F64)
  | text (t : List UInt8)
  | blob (b : List UInt8)
deriving DecidableEq, Repr

/-- Unicode replacement character U+FFFD. -/
def replacementChar : Char := Char.ofNat 0xFFFD

/-- True for a UTF-8 continuation byte `10xxxxxx`. -/
def isCont (c : UInt8) : Bool := 0x80 ≤ c.toNat && c.toNat ≤ 0xBF

/-- Valid range of the first continuation byte of a three-byte sequence
beginning with `b` (narrowed for `E0` and `ED` so that overlong encodings
and surrogates are rejected, as in Rust's std UTF-8 validation). -/
def contOk3 (b c : UInt8) : Bool :=
  if b.toNat = 0xE0 then 0xA0 ≤ c.toNat && c.toNat ≤ 0xBF
  else if b.toNat = 0xED then 0x80 ≤ c.toNat && c.toNat ≤ 0x9F
  else isCont c

/-- Valid range of the first continuation byte of a four-byte sequence
beginning with `b` (narrowed for `F0` and `F4`). -/
def contOk4 (b c : UInt8) : Bool :=
  if b.toNat = 0xF0 then 0x90 ≤ c.toNat && c.toNat ≤ 0xBF
  else if b.toNat = 0xF4 then 0x80 ≤ c.toNat && c.toNat ≤ 0x8F
  else isCont c

/-- Lossy UTF-8 decoding of a byte list, following the documented
behaviour of Rust's `String::from_utf8_lossy`: each maximal invalid
subpart is replaced by one U+FFFD. -/
def utf8LossyList : List UInt8 → List Char
  | [] => []
  | b :: rest =>
    if b.toNat < 0x80 then Char.ofNat b.toNat :: utf8LossyList rest
    else if b.toNat < 0xC2 then replacementChar :: utf8LossyList rest
    else if b.toNat < 0xE0 then
      match rest with
      | [] => [replacementChar]
      | c1 :: rest2 =>
        if isCont c1 then
          Char.ofNat (((b.toNat - 0xC0) <<< 6) + (c1.toNat &&& 0x3F)) ::
            utf8LossyList rest2
        else replacementChar :: utf8LossyList (c1 :: rest2)
    else if b.toNat < 0xF0 then
      match rest with
      | [] => [replacementChar]
      | c1 :: rest2 =>
        if contOk3 b c1 then
          match rest2 with
          | [] => [replacementChar]
          | c2 :: rest3 =>
            if isCont c2 then
              Char.ofNat (((b.toNat - 0xE0) <<< 12) + ((c1.toNat &&& 0x3F) <<< 6) +
                  (c2.toNat &&& 0x3F)) :: utf8LossyList rest3
            else replacementChar :: utf8LossyList (c2 :: rest3)
        else replacementChar :: utf8LossyList (c1 :: rest2)
    else if b.toNat < 0xF5 then
      match rest with
      | [] => [replacementChar]
      | c1 :: rest2 =>
        if contOk4 b c1 then
          match rest2 with
          | [] => [replacementChar]
          | c2 :: rest3 =>
            if isCont c2 then
              match rest3 with
              | [] => [replacementChar]
              | c3 :: rest4 =>
                if isCont c3 then
                  Char.ofNat (((b.toNat - 0xF0) <<< 18) + ((c1.toNat &&& 0x3F) <<< 12) +
                      ((c2.toNat &&& 0x3F) <<< 6) + (c3.toNat &&& 0x3F)) ::
                    utf8LossyList rest4
                else replacementChar :: utf8LossyList (c3 :: rest4)
            else replacementChar :: utf8LossyList (c2 :: rest3)
        else replacementChar :: utf8LossyList (c1 :: rest2)
    else replacementChar :: utf8LossyList rest

/-- Model of `String::from_utf8_lossy`. -/
def utf8Lossy (bs : List UInt8) : String := String.mk (utf8LossyList bs)

/-- Lowercase hex digit for a value below 16 (as produced by `hex::encode`). -/
def hexDigitChar (n : Nat) : Char :=
  if n < 10 then Char.ofNat (48 + n) else Char.ofNat (87 + n)

/-- Character list of the lowercase hex rendering of a byte list. -/
def hexEncodeList : List UInt8 → List Char
  | [] => []
  | b :: bs => hexDigitChar (b.toNat / 16) :: hexDigitChar (b.toNat % 16) :: hexEncodeList bs

/-- Model of `hex::encode`: lowercase hexadecimal string of a byte list. -/
def hexEncode (bs : List UInt8) : String := String.mk (hexEncodeList bs)

/-- One cell of a text-format data row: `none` is the absent field written
for SQL NULL, `some s` a present text field. -/
abbrev TextField := Option String

/-- Text-mode encoding of one cell, the match in the body of
`encode_text_row_data`: Null becomes an absent field, Integer and Real
their decimal string form (`ToString`), Text the lossily repaired UTF-8
string, Blob the lowercase hex string. -/
def encodeTextCell : ValueRef → TextField
  | .Null => none
  | .Integer i => some (toString i)
  | .Real r => some r.display
  | .Text t => some (utf8Lossy t)
  | .Blob b => some (hexEncode b)

/-- Binary-mode encoding of one cell, the match in the body of
`encode_binary_row_data`: Null becomes an absent field, every other
variant is passed to the binary field writer unconverted. -/
def encodeBinCell : ValueRef → BinField
  | .Null => .absent
  | .Integer i => .int i
  | .Real r => .real r
  | .Text t => .text t
  | .Blob b => .blob b

/-- Result cursor as consumed by `while let Ok(Some(row)) = rows.next()`:
the rows the successive `next()` calls yield before the stream terminates,
and whether termination was clean (`Ok(None)`) or an error (`Err(_)`).
Note that the `while let` loop exits in both cases, so the terminator is
never inspected by the encoders. -/
structure Rows where
  fetched : List (List ValueRef)
  cleanEnd : Bool

/-- Encoding of the cells of one row at the given column indices
(the `for idx in 0..columns` loop body).  `row.get? idx = none` models the
panic of `row.get_ref_unwrap(idx)` on an out-of-range index. -/
def encode_text_row (row : List ValueRef) : List Nat → Option (List TextField)
  | [] => some []
  | idx :: rest => do
    let v ← row.get? idx
    let fs ← encode_text_row row rest
    return encodeTextCell v :: fs

/-- Encoding of a list of fetched rows in text mode, each row finalized
(`finish_row`) after its `columns` fields are appended. -/
def encode_text_rows (columns : Nat) : List (List ValueRef) → Option (List (List TextField))
  | [] => some []
  | row :: rest => do
    let fs ← encode_text_row row (List.range columns)
    let rs ← encode_text_rows columns rest
    return fs :: rs

/-- Model of `encode_text_row_data`.  The Rust loop
`while let Ok(Some(row)) = rows.next()` consumes every fetched row and
stops on `Ok(None)` and on `Err(_)` alike, so the encoding depends only on
`rows.fetched`, never on `rows.cleanEnd`. -/
def encode_text_row_data (rows : Rows) (columns : Nat) :
    Option (List (List TextField)) :=
  encode_text_rows columns rows.fetched

/-- Binary-mode counterpart of `encode_text_row`. -/
def encode_binary_row (row : List ValueRef) : List Nat → Option (List BinField)
  | [] => some []
  | idx :: rest => do
    let v ← row.get? idx
    let fs ← encode_binary_row row rest
    return encodeBinCell v :: fs

/-- Binary-mode counterpart of `encode_text_rows`. -/
def encode_binary_rows (columns : Nat) : List (List ValueRef) → Option (List (List BinField))
  | [] => some []
  | row :: rest => do
    let fs ← encode_binary_row row (List.range columns)
    let rs ← encode_binary_rows columns rest
    return fs :: rs

/-- Model of `encode_binary_row_data`; like the text encoder it consumes
exactly the fetched rows and ignores how the stream terminated. -/
def encode_binary_row_data (rows : Rows) (columns : Nat) :
    Option (List (List BinField)) :=
  encode_binary_rows columns rows.fetched

/-- Model of Rust's `str::to_uppercase`, mapping every character to its
uppercase form.  Restricted to the ASCII case mapping (`Char.toUpper`);
the example only ever compares the result against the ASCII literal
vocabulary `"SELECT"`, `"INT"`, `"VARCHAR"`, `"BINARY"`, `"FLOAT"`. -/
def to_uppercase (s : String) : String := String.mk (s.data.map Char.toUpper)

/-- Model of Rust's `str::starts_with(pre)` on strings. -/
def starts_with (s pre : String) : Bool := pre.data.isPrefixOf s.data

/-- Model of `name_to_type`: map a declared sqlite column type name,
uppercased, to a wire type tag.  The Rust `match` has arms for `"INT"`,
`"VARCHAR"`, `"BINARY"` and `"FLOAT"` and hits `unimplemented!` (a panic,
modelled as `none`) for anything else. -/
def name_to_type (name : String) : Option PgType :=
  let n := to_uppercase name
  if n = "INT" then some PgType.INT8
  else if n = "VARCHAR" then some PgType.VARCHAR
  else if n = "BINARY" then some PgType.BYTEA
  else if n = "FLOAT" then some PgType.FLOAT8
  else none

/-- A decoded parameter pushed into the argument vector of `get_params`
(a `Box<dyn ToSql>` in the Rust code), tagged by the Rust type it was
decoded at. -/
inductive SqlValue where
  | ofBool (x : Bool)
  | ofInt4 (x : Int)
  | ofInt8 (x : Int)
  | ofString (x : String)
  | ofFloat4 (x : F64)
  | ofFloat8 (x : F64)
deriving DecidableEq, Repr

/-- Prepared statement handle (`rusqlite::Statement`), modelled over an
abstract database state `σ` captured at prepare time: the column metadata,
the cursor a parameterized `query` call opens (read-only: a sqlite SELECT
does not change the database), and the effect of a parameterized `execute`
call (affected-row count plus the updated database state).  A `none`
result models a failing call whose `unwrap` panics. -/
structure Stmt (σ : Type) where
  columns : List Column
  runQuery : List SqlValue → Option Rows
  runExec : List SqlValue → Option (Nat × σ)

/-- Shared sqlite connection (`rusqlite::Connection`), modelled as its two
entry points used by the example: `prepare` and the direct
`execute(query, ())` of the simple path.  Both act on the current abstract
database state `σ`. -/
structure Connection (σ : Type) where
  prepare : σ → String → Option (Stmt σ)
  execute : σ → String → Option (Nat × σ)

/-- Model of `row_desc_from_stmt`: one `FieldInfo` per column, with
`col.decl_type().unwrap()` (panic when the declared type is absent) and
`name_to_type` (panic when the declared type is unknown). -/
def row_desc_from_stmt {σ : Type} (stmt : Stmt σ) : Option (List FieldInfo) :=
  stmt.columns.mapM fun col => do
    let d ← col.decl_type
    let t ← name_to_type d
    return FieldInfo.mk col.name none none t

/-- Wire response union (`pgwire::api::results::Response`): a query result
(obtained from the text or the binary response builder) or an execution
tag.  Exactly one variant is produced per handled request. -/
inductive QueryResult where
  | text (header : List FieldInfo) (rows : List (List TextField))
  | binary (header : List FieldInfo) (rows : List (List BinField))
deriving DecidableEq, Repr

/-- Response returned by a handler. -/
inductive Response where
  | Query (r : QueryResult)
  | Execution (t : Tag)
deriving DecidableEq, Repr

/-- Model of `SimpleQueryHandler::do_query` for `SqliteBackend`.  The
first component is the response (`none` when an `unwrap` panicked and the
request died without one); the second is the database state after the
request.  The guarded connection is acquired for the whole body; the
branch uppercases the raw query text and tests the literal prefix
`"SELECT"`. -/
def SimpleQueryHandler.do_query {σ : Type} (c : Connection σ) (db : σ) (query : String) :
    Option Response × σ :=
  if starts_with (to_uppercase query) "SELECT" then
    match c.prepare db query with
    | none => (none, db)
    | some stmt =>
      let columns := stmt.columns.length
      match row_desc_from_stmt stmt with
      | none => (none, db)
      | some header =>
        match stmt.runQuery [] with
        | none => (none, db)
        | some rows =>
          match encode_text_row_data rows columns with
          | none => (none, db)
          | some data => (some (Response.Query (QueryResult.text header data)), db)
  else
    match c.execute db query with
    | none => (none, db)
    | some (affected_rows, db2) =>
      (some (Response.Execution (Tag.new_for_execution "OK" (some affected_rows))), db2)

/-- One bound parameter slot of a portal, modelled by the results of
decoding its wire bytes at each Rust type the example ever requests
(`portal.parameter::<T>(i)`); `none` means that decode fails and the
`unwrap` on it panics. -/
structure ParamSlot where
  asBool : Option Bool
  asInt4 : Option Int
  asInt8 : Option Int
  asString : Option String
  asFloat4 : Option F64
  asFloat8 : Option F64
deriving DecidableEq, Repr

/-- Portal of the extended path (`pgwire::api::portal::Portal`): the
statement text, the declared parameter types, and the bound parameter
values.  `parameter_len` is the number of bound values. -/
structure Portal where
  statement : String
  parameter_types : List PgType
  params : List ParamSlot

/-- Loop body of `get_params` over the remaining parameter slots and their
declared types, in position order.  An empty type list with slots left
models the panic of `parameter_types().get(i).unwrap()`; a supported tag
decodes at the matching Rust type (panicking if the decode fails) and
pushes the value; any other tag falls into the `_ => {}` arm and pushes
nothing. -/
def get_params_go : List ParamSlot → List PgType → Option (List SqlValue)
  | [], _ => some []
  | _ :: _, [] => none
  | s :: ss, t :: ts =>
    match t with
    | .BOOL => do
      let v ← s.asBool
      let rest ← get_params_go ss ts
      return SqlValue.ofBool v :: rest
    | .INT4 => do
      let v ← s.asInt4
      let rest ← get_params_go ss ts
      return SqlValue.ofInt4 v :: rest
    | .INT8 => do
      let v ← s.asInt8
      let rest ← get_params_go ss ts
      return SqlValue.ofInt8 v :: rest
    | .TEXT => do
      let v ← s.asString
      let rest ← get_params_go ss ts
      return SqlValue.ofString v :: rest
    | .VARCHAR => do
      let v ← s.asString
      let rest ← get_params_go ss ts
      return SqlValue.ofString v :: rest
    | .FLOAT4 => do
      let v ← s.asFloat4
      let rest ← get_params_go ss ts
      return SqlValue.ofFloat4 v :: rest
    | .FLOAT8 => do
      let v ← s.asFloat8
      let rest ← get_params_go ss ts
      return SqlValue.ofFloat8 v :: rest
    | _ => get_params_go ss ts

/-- Model of `get_params`: iterate the portal's parameter positions
`0..parameter_len`, looking up each declared type and decoding the value. -/
def get_params (portal : Portal) : Option (List SqlValue) :=
  get_params_go portal.params portal.parameter_types

/-- Model of `ExtendedQueryHandler::do_query` for `SqliteBackend`:
prepare the portal's statement, extract the parameters, then branch on the
same uppercase-prefix test; the SELECT arm uses the binary response
builder, the other arm a parameterized execute. -/
def ExtendedQueryHandler.do_query {σ : Type} (c : Connection σ) (db : σ) (portal : Portal) :
    Option Response × σ :=
  match c.prepare db portal.statement with
  | none => (none, db)
  | some stmt =>
    match get_params portal with
    | none => (none, db)
    | some params =>
      if starts_with (to_uppercase portal.statement) "SELECT" then
        let columns := stmt.columns.length
        match row_desc_from_stmt stmt with
        | none => (none, db)
        | some header =>
          match stmt.runQuery params with
          | none => (none, db)
          | some rows =>
            match encode_binary_row_data rows columns with
            | none => (none, db)
            | some data => (some (Response.Query (QueryResult.binary header data)), db)
      else
        match stmt.runExec params with
        | none => (none, db)
        | some (affected_rows, db2) =>
          (some (Response.Execution (Tag.new_for_execution "OK" (some affected_rows))), db2)

/-- Column declared `INT`, used by concrete test connections. -/
def colA : Column := ⟨"a", some "INT"⟩

/-- Concrete statement over state `Nat`: one `INT` column, an empty
cursor, and an execute that reports 2 affected rows and state 7. -/
def stmtW : Stmt Nat :=
  { columns := [colA]
    runQuery := fun _ => some ⟨[], true⟩
    runExec := fun _ => some (2, 7) }

/-- Concrete connection over state `Nat` whose prepare always yields
`stmtW` and whose direct execute reports 3 affected rows and state 9. -/
def cW : Connection Nat :=
  { prepare := fun _ _ => some stmtW
    execute := fun _ _ => some (3, 9) }

/-- Portal with a non-SELECT statement and no parameters. -/
def pW : Portal := { statement := "DELETE FROM t", parameter_types := [], params := [] }

/-- Portal with a SELECT statement and no parameters. -/
def pWsel : Portal := { statement := "SELECT a FROM t", parameter_types := [], params := [] }

/-- Membership of a tag in the set of parameter types `get_params`
handles with a decoding arm (every other tag falls into `_ => {}`). -/
def supportedParamTag : PgType → Bool
  | .BOOL | .INT4 | .INT8 | .TEXT | .VARCHAR | .FLOAT4 | .FLOAT8 => true
  | _ => false

/-- Decoded argument a slot contributes when its declared tag is
supported: the slot's value at the Rust type `get_params` requests for
that tag (`none` when the decode fails or the tag is unsupported). -/
def decodeAt (s : ParamSlot) : PgType → Option SqlValue
  | .BOOL => s.asBool.map SqlValue.ofBool
  | .INT4 => s.asInt4.map SqlValue.ofInt4
  | .INT8 => s.asInt8.map SqlValue.ofInt8
  | .TEXT => s.asString.map SqlValue.ofString
  | .VARCHAR => s.asString.map SqlValue.ofString
  | .FLOAT4 => s.asFloat4.map SqlValue.ofFloat4
  | .FLOAT8 => s.asFloat8.map SqlValue.ofFloat8
  | _ => none

/-- Connection over trivial state whose prepared statement has the given
columns and whose parameterless query opens the given cursor; the direct
execute path is unused. -/
def connWithCursor (cols : List Column) (cur : Rows) : Connection Unit :=
  { prepare := fun _ _ => some
      { columns := cols
        runQuery := fun _ => some cur
        runExec := fun _ => none }
    execute := fun _ _ => none }

/-- Statement a fresh in-memory sqlite connection produces for the query
`"SELECT 1"`: sqlite accepts the statement and reports one result column
whose name is the expression text `"1"`; its declared type is absent
(`sqlite3_column_decltype` returns null for an expression column, so
rusqlite's `Column::decl_type` is `None`), and running the cursor yields
the single row `[Integer 1]`. -/
def sel1Stmt : Stmt Unit :=
  { columns := [⟨"1", none⟩]
    runQuery := fun _ => some ⟨[[ValueRef.Integer 1]], true⟩
    runExec := fun _ => none }

/-- Fresh in-memory sqlite engine with no tables, modelled for the single
request `"SELECT 1"` (any other statement references a missing table and
fails to prepare). -/
def sqliteFresh : Connection Unit :=
  { prepare := fun _ q => if q = "SELECT 1" then some sel1Stmt else none
    execute := fun _ _ => none }

/-- Cursor that yields two rows and then fails (`rows.next()` returns
`Err`) instead of reaching a clean end of stream. -/
def errRows : Rows := ⟨[[ValueRef.Integer 1], [ValueRef.Integer 2]], false⟩

/-- Connection whose SELECT cursor fails mid-stream after two fetched
rows, used to exhibit the silent-truncation behaviour. -/
def errCursorConn : Connection Unit := connWithCursor [colA] errRows

/-- Portal whose statement is semantically a SELECT but carries one
leading space, so the word SELECT is not at character position 0. -/
def pWspace : Portal := { statement := " SELECT 1", parameter_types := [], params := [] }

/-- Parameter slot that decodes successfully at every requested type,
used by concrete parameter-extraction checks. -/
def slotAll : ParamSlot :=
  { asBool := some true
    asInt4 := some 7
    asInt8 := some 8
    asString := some "s"
    asFloat4 := some ⟨"1.5"⟩
    asFloat8 := some ⟨"2.5"⟩ }

/-- True for the characters `0-9` and `a-f`, the alphabet of lowercase
hexadecimal strings. -/
def isLowerHexDigit (c : Char) : Bool :=
  (48 ≤ c.toNat && c.toNat ≤ 57) || (97 ≤ c.toNat && c.toNat ≤ 102)

/-- Shape of a successful simple-path response to a SELECT-prefixed
query: it is a text QueryResult whose header was built by
`row_desc_from_stmt` from the prepared statement. -/
theorem simple_select_shape {σ : Type} (c : Connection σ) (db : σ) (q : String)
    (h : starts_with (to_uppercase q) "SELECT" = true) (r : Response)
    (hr : (SimpleQueryHandler.do_query c db q).1 = some r) :
    ∃ stmt header data, c.prepare db q = some stmt ∧
      row_desc_from_stmt stmt = some header ∧
      r = Response.Query (QueryResult.text header data) := by
  unfold SimpleQueryHandler.do_query at hr
  rw [h] at hr
  simp only [if_true] at hr
  split at hr
  · simp at hr
  next stmt hp =>
    split at hr
    · simp at hr
    next header hd =>
      split at hr
      · simp at hr
      next rows hq =>
        split at hr
        · simp at hr
        next data he =>
          simp only [Option.some.injEq] at hr
          exact ⟨stmt, header, data, hp, hd, hr.symm⟩

/-- Shape of a successful simple-path response to a non-SELECT query: it
is an ExecutionResult with tag `"OK"` carrying exactly the engine's
affected-row count. -/
theorem simple_exec_shape {σ : Type} (c : Connection σ) (db : σ) (q : String)
    (h : starts_with (to_uppercase q) "SELECT" = false) (r : Response)
    (hr : (SimpleQueryHandler.do_query c db q).1 = some r) :
    ∃ n db2, c.execute db q = some (n, db2) ∧
      r = Response.Execution (Tag.new_for_execution "OK" (some n)) := by
  unfold SimpleQueryHandler.do_query at hr
  rw [h] at hr
  simp only [Bool.false_eq_true, if_false] at hr
  split at hr
  · simp at hr
  next n db2 hp =>
    simp only [Option.some.injEq] at hr
    exact ⟨n, db2, hp, hr.symm⟩

/-- Shape of a successful extended-path response to a SELECT-prefixed
portal: a binary QueryResult with the header built from the prepared
statement. -/
theorem extended_select_shape {σ : Type} (c : Connection σ) (db : σ) (p : Portal)
    (h : starts_with (to_uppercase p.statement) "SELECT" = true) (r : Response)
    (hr : (ExtendedQueryHandler.do_query c db p).1 = some r) :
    ∃ stmt header data, c.prepare db p.statement = some stmt ∧
      row_desc_from_stmt stmt = some header ∧
      r = Response.Query (QueryResult.binary header data) := by
  unfold ExtendedQueryHandler.do_query at hr
  split at hr
  · simp at hr
  next stmt hp =>
    split at hr
    · simp at hr
    next params hpar =>
      rw [h] at hr
      simp only [if_true] at hr
      split at hr
      · simp at hr
      next header hd =>
        split at hr
        · simp at hr
        next rows hq =>
          split at hr
          · simp at hr
          next data he =>
            simp only [Option.some.injEq] at hr
            exact ⟨stmt, header, data, hp, hd, hr.symm⟩

/-- Shape of a successful extended-path response to a non-SELECT portal:
an ExecutionResult with tag `"OK"` carrying the affected-row count of the
parameterized execute. -/
theorem extended_exec_shape {σ : Type} (c : Connection σ) (db : σ) (p : Portal)
    (h : starts_with (to_uppercase p.statement) "SELECT" = false) (r : Response)
    (hr : (ExtendedQueryHandler.do_query c db p).1 = some r) :
    ∃ stmt params n db2, c.prepare db p.statement = some stmt ∧
      get_params p = some params ∧ stmt.runExec params = some (n, db2) ∧
      r = Response.Execution (Tag.new_for_execution "OK" (some n)) := by
  unfold ExtendedQueryHandler.do_query at hr
  split at hr
  · simp at hr
  next stmt hp =>
    split at hr
    · simp at hr
    next params hpar =>
      rw [h] at hr
      simp only [Bool.false_eq_true, if_false] at hr
      split at hr
      · simp at hr
      next n db2 he =>
        simp only [Option.some.injEq] at hr
        exact ⟨stmt, params, n, db2, hp, hpar, he, hr.symm⟩

/-- A SELECT-routed simple request leaves the database state unchanged:
the query path never writes back a new state. -/
theorem simple_select_state {σ : Type} (c : Connection σ) (db : σ) (q : String)
    (h : starts_with (to_uppercase q) "SELECT" = true) :
    (SimpleQueryHandler.do_query c db q).2 = db := by
  unfold SimpleQueryHandler.do_query
  rw [h]
  simp only [if_true]
  split
  · rfl
  next stmt hp =>
    split
    · rfl
    next header hd =>
      split
      · rfl
      next rows hq =>
        split
        · rfl
        · rfl
/-- Each successfully encoded text row has one field per requested index. -/
theorem encode_text_row_length (row : List ValueRef) :
    ∀ (idxs : List Nat) (out : List TextField),
      encode_text_row row idxs = some out → out.length = idxs.length := by
  intro idxs
  induction idxs with
  | nil =>
    intro out h
    simp only [encode_text_row, Option.some.injEq] at h
    simp [← h]
  | cons i rest ih =>
    intro out h
    simp only [encode_text_row, Option.bind_eq_bind, Option.pure_def, Option.bind_eq_some,
      Option.some.injEq] at h
    obtain ⟨v, hv, fs, hfs, hout⟩ := h
    simp [← hout, ih fs hfs]

/-- Each successfully encoded binary row has one field per requested index. -/
theorem encode_binary_row_length (row : List ValueRef) :
    ∀ (idxs : List Nat) (out : List BinField),
      encode_binary_row row idxs = some out → out.length = idxs.length := by
  intro idxs
  induction idxs with
  | nil =>
    intro out h
    simp only [encode_binary_row, Option.some.injEq] at h
    simp [← h]
  | cons i rest ih =>
    intro out h
    simp only [encode_binary_row, Option.bind_eq_bind, Option.pure_def, Option.bind_eq_some,
      Option.some.injEq] at h
    obtain ⟨v, hv, fs, hfs, hout⟩ := h
    simp [← hout, ih fs hfs]

/-- A successful text encoding emits one sealed row per fetched row, each
with exactly `columns` fields. -/
theorem encode_text_rows_spec (columns : Nat) :
    ∀ (rs : List (List ValueRef)) (out : List (List TextField)),
      encode_text_rows columns rs = some out →
      out.length = rs.length ∧ ∀ r ∈ out, r.length = columns := by
  intro rs
  induction rs with
  | nil =>
    intro out h
    simp only [encode_text_rows, Option.some.injEq] at h
    simp [← h]
  | cons row rest ih =>
    intro out h
    simp only [encode_text_rows, Option.bind_eq_bind, Option.pure_def, Option.bind_eq_some,
      Option.some.injEq] at h
    obtain ⟨fs, hfs, rest', hrest, hout⟩ := h
    have hlen := encode_text_row_length row (List.range columns) fs hfs
    obtain ⟨ih1, ih2⟩ := ih rest' hrest
    subst hout
    refine ⟨by simp [ih1], ?_⟩
    intro r hr
    rcases List.mem_cons.mp hr with h1 | h2
    · subst h1; simpa using hlen
    · exact ih2 r h2

/-- A successful binary encoding emits one sealed row per fetched row,
each with exactly `columns` fields. -/
theorem encode_binary_rows_spec (columns : Nat) :
    ∀ (rs : List (List ValueRef)) (out : List (List BinField)),
      encode_binary_rows columns rs = some out →
      out.length = rs.length ∧ ∀ r ∈ out, r.length = columns := by
  intro rs
  induction rs with
  | nil =>
    intro out h
    simp only [encode_binary_rows, Option.some.injEq] at h
    simp [← h]
  | cons row rest ih =>
    intro out h
    simp only [encode_binary_rows, Option.bind_eq_bind, Option.pure_def, Option.bind_eq_some,
      Option.some.injEq] at h
    obtain ⟨fs, hfs, rest', hrest, hout⟩ := h
    have hlen := encode_binary_row_length row (List.range columns) fs hfs
    obtain ⟨ih1, ih2⟩ := ih rest' hrest
    subst hout
    refine ⟨by simp [ih1], ?_⟩
    intro r hr
    rcases List.mem_cons.mp hr with h1 | h2
    · subst h1; simpa using hlen
    · exact ih2 r h2

/-- Hex digits below 16 render to the lowercase hex alphabet. -/
theorem hexDigitChar_lower : ∀ n, n < 16 → isLowerHexDigit (hexDigitChar n) = true := by
  decide

/-- The hex rendering of a byte list has two characters per byte. -/
theorem hexEncodeList_length (bs : List UInt8) :
    (hexEncodeList bs).length = 2 * bs.length := by
  induction bs with
  | nil => rfl
  | cons b rest ih => simp [hexEncodeList, ih]; omega

/-- Every character of the hex rendering is a lowercase hex digit. -/
theorem hexEncodeList_lower (bs : List UInt8) :
    ∀ c ∈ hexEncodeList bs, isLowerHexDigit c = true := by
  induction bs with
  | nil => intro c hc; simp [hexEncodeList] at hc
  | cons b rest ih =>
    intro c hc
    simp only [hexEncodeList, List.mem_cons] at hc
    rcases hc with h1 | h2 | h3
    · subst h1
      exact hexDigitChar_lower _ (Nat.div_lt_of_lt_mul (by exact b.toNat_lt))
    · subst h2
      exact hexDigitChar_lower _ (Nat.mod_lt _ (by omega))
    · exact ih c h3
/-- When every position's declared tag is supported and decodes, the
extracted argument list is position-aligned with the input. -/
theorem get_params_go_all_supported :
    ∀ (slots : List ParamSlot) (types : List PgType),
      List.Forall₂ (fun s t => ∃ v, decodeAt s t = some v) slots types →
      ∃ out, get_params_go slots types = some out ∧
        out.length = slots.length ∧
        List.Forall₂ (fun (st : ParamSlot × PgType) v => decodeAt st.1 st.2 = some v)
          (slots.zip types) out := by
  intro slots types h
  induction h with
  | nil => exact ⟨[], rfl, rfl, List.Forall₂.nil⟩
  | @cons s t ss ts hst hrest ih =>
    obtain ⟨v, hv⟩ := hst
    obtain ⟨out, hout, hlen, hfa⟩ := ih
    refine ⟨v :: out, ?_, by simp [hlen], ?_⟩
    · cases t <;>
        first
          | (obtain ⟨a, ha, hva⟩ := Option.map_eq_some'.mp hv
             subst hva
             simp [get_params_go, ha, hout])
          | simp [decodeAt] at hv
    · exact List.Forall₂.cons hv hfa

/-- Deleting a position whose declared tag is unsupported does not change
the extracted argument list: the position contributes nothing and every
other position decodes as before. -/
theorem get_params_go_skip :
    ∀ (ss1 : List ParamSlot) (ts1 : List PgType), ss1.length = ts1.length →
      ∀ (s : ParamSlot) (t : PgType), supportedParamTag t = false →
      ∀ (ss2 : List ParamSlot) (ts2 : List PgType),
        get_params_go (ss1 ++ s :: ss2) (ts1 ++ t :: ts2)
          = get_params_go (ss1 ++ ss2) (ts1 ++ ts2) := by
  intro ss1
  induction ss1 with
  | nil =>
    intro ts1 hlen s t ht ss2 ts2
    cases ts1 with
    | nil =>
      simp only [List.nil_append]
      cases t <;> simp_all [get_params_go, supportedParamTag]
    | cons t1 trest => simp at hlen
  | cons s1 srest ih =>
    intro ts1 hlen s t ht ss2 ts2
    cases ts1 with
    | nil => simp at hlen
    | cons t1 trest =>
      simp only [List.cons_append]
      have hrec := ih trest (by simpa using hlen) s t ht ss2 ts2
      cases t1 <;> simp only [get_params_go, hrec]
/-- C1: for every request on either path, the SELECT/non-SELECT decision
is the case-insensitive prefix test of the literal word SELECT on the raw
statement text, and exactly one Response variant is produced: a
SELECT-prefixed statement always takes the query-cursor path and any
produced response is a QueryResult (even with zero rows) whose column
header is built from the prepared statement; any other statement takes
the execute path and any produced response is an ExecutionResult with
the fixed command tag "OK" whose count equals the backing engine's
affected-row count. -/
theorem c1_select_routing {σ : Type} (c : Connection σ) (db : σ) (q : String) (p : Portal) :
    (starts_with (to_uppercase q) "SELECT" = true →
      ∀ r, (SimpleQueryHandler.do_query c db q).1 = some r →
        ∃ stmt header data, c.prepare db q = some stmt ∧
          row_desc_from_stmt stmt = some header ∧
          r = Response.Query (QueryResult.text header data)) ∧
    (starts_with (to_uppercase q) "SELECT" = false →
      ∀ r, (SimpleQueryHandler.do_query c db q).1 = some r →
        ∃ n db2, c.execute db q = some (n, db2) ∧
          r = Response.Execution (Tag.new_for_execution "OK" (some n))) ∧
    (starts_with (to_uppercase p.statement) "SELECT" = true →
      ∀ r, (ExtendedQueryHandler.do_query c db p).1 = some r →
        ∃ stmt header data, c.prepare db p.statement = some stmt ∧
          row_desc_from_stmt stmt = some header ∧
          r = Response.Query (QueryResult.binary header data)) ∧
    (starts_with (to_uppercase p.statement) "SELECT" = false →
      ∀ r, (ExtendedQueryHandler.do_query c db p).1 = some r →
        ∃ stmt params n db2, c.prepare db p.statement = some stmt ∧
          get_params p = some params ∧ stmt.runExec params = some (n, db2) ∧
          r = Response.Execution (Tag.new_for_execution "OK" (some n))) :=
  ⟨fun h r hr => simple_select_shape c db q h r hr,
   fun h r hr => simple_exec_shape c db q h r hr,
   fun h r hr => extended_select_shape c db p h r hr,
   fun h r hr => extended_exec_shape c db p h r hr⟩

/-- Witness for C1 at a concrete connection: a zero-row SELECT on the
simple path yields a text QueryResult with the statement's header, a
DELETE yields an ExecutionResult "OK" with the engine's count 3, and the
extended path mirrors both with the binary builder and count 2. -/
theorem c1_select_routing_witness :
    (∃ stmt header data, cW.prepare 0 "SELECT a FROM t" = some stmt ∧
        row_desc_from_stmt stmt = some header ∧
        Response.Query (QueryResult.text [⟨"a", none, none, PgType.INT8⟩] [])
          = Response.Query (QueryResult.text header data)) ∧
    (∃ n db2, cW.execute 0 "DELETE FROM t" = some (n, db2) ∧
        Response.Execution (Tag.new_for_execution "OK" (some 3))
          = Response.Execution (Tag.new_for_execution "OK" (some n))) ∧
    (∃ stmt header data, cW.prepare 0 pWsel.statement = some stmt ∧
        row_desc_from_stmt stmt = some header ∧
        Response.Query (QueryResult.binary [⟨"a", none, none, PgType.INT8⟩] [])
          = Response.Query (QueryResult.binary header data)) ∧
    (∃ stmt params n db2, cW.prepare 0 pW.statement = some stmt ∧
        get_params pW = some params ∧ stmt.runExec params = some (n, db2) ∧
        Response.Execution (Tag.new_for_execution "OK" (some 2))
          = Response.Execution (Tag.new_for_execution "OK" (some n))) :=
  ⟨(c1_select_routing cW 0 "SELECT a FROM t" pWsel).1 (by rfl)
      (Response.Query (QueryResult.text [⟨"a", none, none, PgType.INT8⟩] [])) (by rfl),
   (c1_select_routing cW 0 "DELETE FROM t" pW).2.1 (by rfl)
      (Response.Execution (Tag.new_for_execution "OK" (some 3))) (by rfl),
   (c1_select_routing cW 0 "SELECT a FROM t" pWsel).2.2.1 (by rfl)
      (Response.Query (QueryResult.binary [⟨"a", none, none, PgType.INT8⟩] [])) (by rfl),
   (c1_select_routing cW 0 "DELETE FROM t" pW).2.2.2 (by rfl)
      (Response.Execution (Tag.new_for_execution "OK" (some 2))) (by rfl)⟩
/-- C9: a query in which the word SELECT is not at character position 0
(for example the leading-space query " SELECT 1") fails the uppercase
prefix test, and both handlers then route the request to the non-SELECT
execute path, producing an Execution response if any. -/
theorem c9_nonzero_position_routing {σ : Type} (c : Connection σ) (db : σ) (p : Portal)
    (q : String) (h : starts_with (to_uppercase q) "SELECT" = false) :
    starts_with (to_uppercase " SELECT 1") "SELECT" = false ∧
    (∀ r, (SimpleQueryHandler.do_query c db q).1 = some r →
      ∃ t, r = Response.Execution t) ∧
    (p.statement = q →
      ∀ r, (ExtendedQueryHandler.do_query c db p).1 = some r →
        ∃ t, r = Response.Execution t) := by
  refine ⟨by decide, ?_, ?_⟩
  · intro r hr
    obtain ⟨n, db2, _, hre⟩ := simple_exec_shape c db q h r hr
    exact ⟨_, hre⟩
  · intro hpq r hr
    obtain ⟨stmt, params, n, db2, _, _, _, hre⟩ :=
      extended_exec_shape c db p (by rw [hpq]; exact h) r hr
    exact ⟨_, hre⟩

/-- Witness for C9 at the concrete query " SELECT 1": the prefix test
fails and both handlers produce Execution responses. -/
theorem c9_nonzero_position_routing_witness :
    starts_with (to_uppercase " SELECT 1") "SELECT" = false ∧
    (∃ t, Response.Execution (Tag.new_for_execution "OK" (some 3)) = Response.Execution t) ∧
    (∃ t, Response.Execution (Tag.new_for_execution "OK" (some 2)) = Response.Execution t) :=
  ⟨(c9_nonzero_position_routing cW 0 pWspace " SELECT 1" (by decide)).1,
   (c9_nonzero_position_routing cW 0 pWspace " SELECT 1" (by decide)).2.1
      (Response.Execution (Tag.new_for_execution "OK" (some 3))) (by rfl),
   (c9_nonzero_position_routing cW 0 pWspace " SELECT 1" (by decide)).2.2 (by rfl)
      (Response.Execution (Tag.new_for_execution "OK" (some 2))) (by rfl)⟩

/-- C7: a read-only SELECT issued twice through the simple-query handler
with no intervening writes yields identical Response payloads — the
SELECT path leaves the database state unchanged, and rerunning the same
query on that state produces the same response. -/
theorem c7_idempotent_select {σ : Type} (c : Connection σ) (db : σ) (q : String)
    (h : starts_with (to_uppercase q) "SELECT" = true) :
    (SimpleQueryHandler.do_query c db q).2 = db ∧
    (SimpleQueryHandler.do_query c (SimpleQueryHandler.do_query c db q).2 q).1
      = (SimpleQueryHandler.do_query c db q).1 := by
  have hs := simple_select_state c db q h
  exact ⟨hs, by rw [hs]⟩

/-- Witness for C7 at a concrete read-only SELECT. -/
theorem c7_idempotent_select_witness :
    (SimpleQueryHandler.do_query cW 0 "SELECT a FROM t").2 = 0 ∧
    (SimpleQueryHandler.do_query cW (SimpleQueryHandler.do_query cW 0 "SELECT a FROM t").2
        "SELECT a FROM t").1
      = (SimpleQueryHandler.do_query cW 0 "SELECT a FROM t").1 :=
  c7_idempotent_select cW 0 "SELECT a FROM t" (by rfl)
/-- C5 counterexample: a cursor that fails after two fetched rows
(`cleanEnd = false` models `rows.next()` returning `Err` mid-stream)
still produces a successful partial QueryResult holding exactly the rows
fetched so far — the request is not aborted. -/
theorem c5_counterexample :
    errRows.cleanEnd = false ∧
    (SimpleQueryHandler.do_query errCursorConn () "SELECT a FROM t").1
      = some (Response.Query (QueryResult.text [⟨"a", none, none, PgType.INT8⟩]
          [[some "1"], [some "2"]])) :=
  ⟨rfl, rfl⟩

/-- C5 amended: a mid-stream cursor-fetch failure is not fatal — the
`while let Ok(Some(row))` loop treats `Err` exactly like a clean end of
stream, so both encoders and the whole simple request return the same
(successful, possibly truncated) result they would return for a cursor
that ended cleanly after the same fetched rows. -/
theorem c5_silent_truncation (cols : List Column) (fetched : List (List ValueRef)) (q : String) :
    (∀ columns, encode_text_row_data ⟨fetched, false⟩ columns
        = encode_text_row_data ⟨fetched, true⟩ columns) ∧
    (∀ columns, encode_binary_row_data ⟨fetched, false⟩ columns
        = encode_binary_row_data ⟨fetched, true⟩ columns) ∧
    SimpleQueryHandler.do_query (connWithCursor cols ⟨fetched, false⟩) () q
      = SimpleQueryHandler.do_query (connWithCursor cols ⟨fetched, true⟩) () q :=
  ⟨fun _ => rfl, fun _ => rfl, rfl⟩

/-- C6 counterexample: on the fresh in-memory engine the simple query
"SELECT 1" produces no QueryResult at all (the request dies in
`row_desc_from_stmt`, because the result column is an expression whose
declared type is absent, and `decl_type().unwrap()` panics). -/
theorem c6_counterexample :
    ¬ ∃ qr, (SimpleQueryHandler.do_query sqliteFresh () "SELECT 1").1
        = some (Response.Query qr) := by
  rintro ⟨qr, h⟩
  rw [show (SimpleQueryHandler.do_query sqliteFresh () "SELECT 1").1 = none from rfl] at h
  exact Option.noConfusion h

/-- C6 amended: handling "SELECT 1" on a fresh engine takes the SELECT
path and prepares successfully, and the engine would deliver the single
row [Integer 1], but the request aborts with no Response while building
the row description: the expression column "1" carries no declared type,
so the unwrap of `decl_type` panics before the query is run. -/
theorem c6_select1_aborts :
    starts_with (to_uppercase "SELECT 1") "SELECT" = true ∧
    sqliteFresh.prepare () "SELECT 1" = some sel1Stmt ∧
    sel1Stmt.runQuery [] = some ⟨[[ValueRef.Integer 1]], true⟩ ∧
    row_desc_from_stmt sel1Stmt = none ∧
    (SimpleQueryHandler.do_query sqliteFresh () "SELECT 1").1 = none :=
  ⟨rfl, rfl, rfl, rfl, rfl⟩
/-- C2: each cell is encoded by its Native Value variant — in text mode
Null is an absent field, Integer its decimal string, Real its decimal
rendering, Text the (lossily repaired) UTF-8 string, Blob the lowercase
hexadecimal string (two hex digits per byte, alphabet 0-9a-f); in binary
mode Null is an absent field and every other variant is passed to the
binary field writer unconverted.  In particular the row
[NULL, Integer 42, Real 3.14, Text "hello", Blob [0xDE, 0xAD]] encodes in
text mode to [absent, "42", "3.14", "hello", "dead"]. -/
theorem c2_cell_encoding :
    encodeTextCell ValueRef.Null = none ∧
    (∀ i, encodeTextCell (ValueRef.Integer i) = some (toString i)) ∧
    (∀ r, encodeTextCell (ValueRef.Real r) = some r.display) ∧
    (∀ t, encodeTextCell (ValueRef.Text t) = some (utf8Lossy t)) ∧
    (∀ b, encodeTextCell (ValueRef.Blob b) = some (hexEncode b) ∧
      (hexEncode b).length = 2 * b.length ∧
      (hexEncode b).data.all isLowerHexDigit = true) ∧
    encodeBinCell ValueRef.Null = BinField.absent ∧
    (∀ i, encodeBinCell (ValueRef.Integer i) = BinField.int i) ∧
    (∀ r, encodeBinCell (ValueRef.Real r) = BinField.real r) ∧
    (∀ t, encodeBinCell (ValueRef.Text t) = BinField.text t) ∧
    (∀ b, encodeBinCell (ValueRef.Blob b) = BinField.blob b) ∧
    encode_text_row_data
        ⟨[[ValueRef.Null, ValueRef.Integer 42, ValueRef.Real ⟨"3.14"⟩,
           ValueRef.Text [104, 101, 108, 108, 111], ValueRef.Blob [0xDE, 0xAD]]], true⟩ 5
      = some [[none, some "42", some "3.14", some "hello", some "dead"]] ∧
    encode_binary_row_data
        ⟨[[ValueRef.Null, ValueRef.Integer 42, ValueRef.Real ⟨"3.14"⟩,
           ValueRef.Text [104, 101, 108, 108, 111], ValueRef.Blob [0xDE, 0xAD]]], true⟩ 5
      = some [[BinField.absent, BinField.int 42, BinField.real ⟨"3.14"⟩,
           BinField.text [104, 101, 108, 108, 111], BinField.blob [0xDE, 0xAD]]] := by
  refine ⟨rfl, fun i => rfl, fun r => rfl, fun t => rfl, ?_, rfl, fun i => rfl,
    fun r => rfl, fun t => rfl, fun b => rfl, by decide, by decide⟩
  intro b
  refine ⟨rfl, hexEncodeList_length b, ?_⟩
  simpa [List.all_eq_true] using fun ch hch => hexEncodeList_lower b ch hch
/-- C3: the declared-type mapping depends only on the uppercased input
(case-insensitivity), maps exactly the vocabulary INT to INT8, VARCHAR to
VARCHAR, BINARY to BYTEA and FLOAT to FLOAT8, and fails (panics, no
silent default tag) for every name outside this vocabulary. -/
theorem c3_name_to_type_spec :
    (∀ s t : String, to_uppercase s = to_uppercase t → name_to_type s = name_to_type t) ∧
    (∀ s, to_uppercase s = "INT" → name_to_type s = some PgType.INT8) ∧
    (∀ s, to_uppercase s = "VARCHAR" → name_to_type s = some PgType.VARCHAR) ∧
    (∀ s, to_uppercase s = "BINARY" → name_to_type s = some PgType.BYTEA) ∧
    (∀ s, to_uppercase s = "FLOAT" → name_to_type s = some PgType.FLOAT8) ∧
    (∀ s, to_uppercase s ≠ "INT" → to_uppercase s ≠ "VARCHAR" →
      to_uppercase s ≠ "BINARY" → to_uppercase s ≠ "FLOAT" → name_to_type s = none) := by
  refine ⟨?_, ?_, ?_, ?_, ?_, ?_⟩
  · intro s t h; unfold name_to_type; rw [h]
  · intro s h; simp [name_to_type, h]
  · intro s h; simp [name_to_type, h]
  · intro s h; simp [name_to_type, h]
  · intro s h; simp [name_to_type, h]
  · intro s h1 h2 h3 h4; simp [name_to_type, h1, h2, h3, h4]

/-- Witness for C3: each vocabulary word in non-canonical case maps to
its documented tag, an unknown name maps to none, and case variants of
one name agree. -/
theorem c3_name_to_type_spec_witness :
    name_to_type "int" = some PgType.INT8 ∧
    name_to_type "Varchar" = some PgType.VARCHAR ∧
    name_to_type "binary" = some PgType.BYTEA ∧
    name_to_type "fLoAt" = some PgType.FLOAT8 ∧
    name_to_type "TEXT" = none ∧
    name_to_type "int" = name_to_type "INT" :=
  ⟨c3_name_to_type_spec.2.1 "int" (by decide),
   c3_name_to_type_spec.2.2.1 "Varchar" (by decide),
   c3_name_to_type_spec.2.2.2.1 "binary" (by decide),
   c3_name_to_type_spec.2.2.2.2.1 "fLoAt" (by decide),
   c3_name_to_type_spec.2.2.2.2.2 "TEXT" (by decide) (by decide) (by decide) (by decide),
   c3_name_to_type_spec.1 "int" "INT" (by decide)⟩
/-- C4: when every declared tag of a portal's parameter list is supported
and decodes, the extracted argument list has the same length and its i-th
element is the native value decoded at the i-th tag; a position holding an
unsupported tag contributes nothing — deleting it (slot and tag together)
leaves the extraction of every other position unchanged, and no error is
raised for it. -/
theorem c4_get_params_spec :
    (∀ (q : String) (slots : List ParamSlot) (types : List PgType),
      List.Forall₂ (fun s t => ∃ v, decodeAt s t = some v) slots types →
      ∃ out, get_params ⟨q, types, slots⟩ = some out ∧
        out.length = slots.length ∧
        List.Forall₂ (fun (st : ParamSlot × PgType) v => decodeAt st.1 st.2 = some v)
          (slots.zip types) out) ∧
    (∀ (q : String) (ss1 : List ParamSlot) (ts1 : List PgType), ss1.length = ts1.length →
      ∀ (s : ParamSlot) (t : PgType), supportedParamTag t = false →
      ∀ (ss2 : List ParamSlot) (ts2 : List PgType),
        get_params ⟨q, ts1 ++ t :: ts2, ss1 ++ s :: ss2⟩
          = get_params ⟨q, ts1 ++ ts2, ss1 ++ ss2⟩) :=
  ⟨fun _ slots types h => get_params_go_all_supported slots types h,
   fun _ ss1 ts1 hlen s t ht ss2 ts2 => get_params_go_skip ss1 ts1 hlen s t ht ss2 ts2⟩

/-- Witness for C4: a BOOL+VARCHAR portal extracts a two-element aligned
argument list, and deleting a DATE-tagged middle position leaves the
extraction unchanged. -/
theorem c4_get_params_spec_witness :
    (∃ out, get_params ⟨"q", [PgType.BOOL, PgType.VARCHAR], [slotAll, slotAll]⟩ = some out ∧
      out.length = ([slotAll, slotAll] : List ParamSlot).length ∧
      List.Forall₂ (fun (st : ParamSlot × PgType) v => decodeAt st.1 st.2 = some v)
        (([slotAll, slotAll] : List ParamSlot).zip [PgType.BOOL, PgType.VARCHAR]) out) ∧
    get_params ⟨"q", [PgType.BOOL, PgType.DATE, PgType.INT8], [slotAll, slotAll, slotAll]⟩
      = get_params ⟨"q", [PgType.BOOL, PgType.INT8], [slotAll, slotAll]⟩ :=
  ⟨c4_get_params_spec.1 "q" [slotAll, slotAll] [PgType.BOOL, PgType.VARCHAR]
      (List.Forall₂.cons ⟨SqlValue.ofBool true, rfl⟩
        (List.Forall₂.cons ⟨SqlValue.ofString "s", rfl⟩ List.Forall₂.nil)),
   c4_get_params_spec.2 "q" [slotAll] [PgType.BOOL] rfl slotAll PgType.DATE rfl
      [slotAll] [PgType.INT8]⟩

/-- C10: whenever an encoder pass succeeds, it emits exactly one sealed
row per fetched cursor row, and every emitted row has exactly the
prepared statement's column count of fields, in both text and binary
mode. -/
theorem c10_row_width :
    (∀ (rows : Rows) (columns : Nat) (out : List (List TextField)),
      encode_text_row_data rows columns = some out →
      out.length = rows.fetched.length ∧ ∀ r ∈ out, r.length = columns) ∧
    (∀ (rows : Rows) (columns : Nat) (out : List (List BinField)),
      encode_binary_row_data rows columns = some out →
      out.length = rows.fetched.length ∧ ∀ r ∈ out, r.length = columns) :=
  ⟨fun rows columns out h => encode_text_rows_spec columns rows.fetched out h,
   fun rows columns out h => encode_binary_rows_spec columns rows.fetched out h⟩

/-- Witness for C10 on a concrete two-column cursor. -/
theorem c10_row_width_witness :
    ([[ (none : TextField), some "1" ]].length
        = (Rows.mk [[ValueRef.Null, ValueRef.Integer 1]] true).fetched.length ∧
      ∀ r ∈ [[ (none : TextField), some "1" ]], r.length = 2) ∧
    ([[BinField.absent, BinField.int 1]].length
        = (Rows.mk [[ValueRef.Null, ValueRef.Integer 1]] true).fetched.length ∧
      ∀ r ∈ [[BinField.absent, BinField.int 1]], r.length = 2) :=
  ⟨c10_row_width.1 (Rows.mk [[ValueRef.Null, ValueRef.Integer 1]] true) 2
      [[none, some "1"]] rfl,
   c10_row_width.2 (Rows.mk [[ValueRef.Null, ValueRef.Integer 1]] true) 2
      [[BinField.absent, BinField.int 1]] rfl⟩
